import Mathlib

/-!
# Verification of the nbgrader autotest-instantiation preprocessor

A shallow embedding of `nbgrader/preprocessors/instantiatetests.py`.
Python strings are modelled as `List Char`; Python `str.split(c)` is
`List.splitOn c`, `c.join(ps)` is `[c].intercalate ps`, `str.strip(...)`
drops matching characters from both ends, and substring membership
(`needle in hay`) / `str.find` are modelled by explicit scans.
External collaborators (the base `Execute` preprocessor, the jinja2
renderer, the kernel transport, the filesystem and the random salt
generator) enter as oracle parameters; everything that is code of
`instantiatetests.py` itself is translated directly.
-/

namespace NbgraderInstantiateTests

/-- The characters Python's `str.strip()` removes (ASCII whitespace,
as produced by `str.isspace` on the code lines at hand). -/
def isPySpace (c : Char) : Bool :=
  c == ' ' || c == '\t' || c == '\n' || c == '\r' || c == '\x0b' || c == '\x0c'

/-- Strip characters satisfying `p` from both ends, like Python's
`str.strip` with a character class. -/
def pyStripBy (p : Char → Bool) (s : List Char) : List Char :=
  ((s.dropWhile p).reverse.dropWhile p).reverse

/-- Python `str.strip()` (no argument): strip surrounding whitespace. -/
def pyStripWs (s : List Char) : List Char :=
  pyStripBy isPySpace s

/-- Python `str.strip(q)` for a single-character class `q`. -/
def pyStripChar (q : Char) (s : List Char) : List Char :=
  pyStripBy (fun c => c == q) s

/-- Python `needle in hay` substring membership. -/
def containsSub (needle : List Char) : List Char → Bool
  | [] => needle.isEmpty
  | c :: t => needle.isPrefixOf (c :: t) || containsSub needle t

/-- Index of the first occurrence of `needle` in the argument
(Python `str.find`, with `none` in place of `-1`). -/
def findSubIdx (needle : List Char) : List Char → Option Nat
  | [] => if needle.isEmpty then some 0 else none
  | c :: t =>
    if needle.isPrefixOf (c :: t) then some 0
    else (findSubIdx needle t).map (· + 1)

/-- `hay[hay.find(needle) + len(needle):]` — the text strictly after the
first occurrence of `needle`.  Call sites in the source only reach this
after an `in` guard, so the not-found case is arbitrary. -/
def afterFirst (needle hay : List Char) : List Char :=
  match findSubIdx needle hay with
  | some i => hay.drop (i + needle.length)
  | none => []

/-- `hay[:hay.find(needle)]` — the text strictly before the first
occurrence of `needle` (call sites guard on containment). -/
def beforeFirst (needle hay : List Char) : List Char :=
  match findSubIdx needle hay with
  | some i => hay.take i
  | none => []

/-- Python `s.split(c)` for a one-character separator: splits at every
occurrence, keeps empty pieces, and maps `""` to `[""]`. -/
def pySplit (sep : Char) (s : List Char) : List (List Char) :=
  List.splitOn sep s

/-- Python `c.join(parts)`. -/
def pyJoin (sep : Char) (parts : List (List Char)) : List Char :=
  [sep].intercalate parts

/-! ## The R output sanitizer (`sanitize_R_output`, lines 17-19)

`re.sub(r'\[\d+\]\s+', '', out)` followed by `.strip('"').strip("'")`. -/

/-- Try to match the regex `\[\d+\]\s+` at the head of `s`; on success
return the remainder after the (greedy) match. -/
def matchIndexMarker (s : List Char) : Option (List Char) :=
  match s with
  | '[' :: rest =>
    if (rest.takeWhile Char.isDigit).isEmpty then none
    else
      match rest.dropWhile Char.isDigit with
      | ']' :: r2 =>
        if (r2.takeWhile isPySpace).isEmpty then none
        else some (r2.dropWhile isPySpace)
      | _ => none
  | _ => none

/-- One pass of `re.sub(r'\[\d+\]\s+', '', s)`: scan left to right,
delete each non-overlapping match, continue after it.  Fuel-indexed for
structural recursion; every step consumes at least one character, so
`s.length` fuel is always enough. -/
def reSubIndexMarkersAux : Nat → List Char → List Char
  | 0, s => s
  | _ + 1, [] => []
  | n + 1, c :: cs =>
    match matchIndexMarker (c :: cs) with
    | some rest => reSubIndexMarkersAux n rest
    | none => c :: reSubIndexMarkersAux n cs

/-- `re.sub(r'\[\d+\]\s+', '', s)`. -/
def reSubIndexMarkers (s : List Char) : List Char :=
  reSubIndexMarkersAux s.length s

/-- `sanitize_R_output` (lines 17-19): delete index-prefix markers, then
strip surrounding double quotes, then surrounding single quotes. -/
def sanitize_R_output (s : List Char) : List Char :=
  pyStripChar '\'' (pyStripChar '"' (reSubIndexMarkers s))

/-- Whether the regex `\[\d+\]\s+` matches anywhere in `s`. -/
def hasIndexMarker : List Char → Bool
  | [] => false
  | c :: t => (matchIndexMarker (c :: t)).isSome || hasIndexMarker t

/-- `true` when neither end of `s` is a double- or single-quote
character (so both `strip` stages of the sanitizer are identities). -/
def noEdgeQuotes (s : List Char) : Bool :=
  (match s.head? with
   | some c => !(c == '"' || c == '\'')
   | none => true) &&
  (match s.getLast? with
   | some c => !(c == '"' || c == '\'')
   | none => true)

/-! ## Directive scanning (`preprocess_cell`, lines 110-211) -/

/-- Evaluation of the guard on line 130,
`self.autotest_delimiter not in line or line.strip()[0] != '#'`, with
Python's left-to-right short circuit.  `none` models the `IndexError`
from `line.strip()[0]` on a line whose strip is empty; `some true`
means the line is a directive line, `some false` that it passes
through. -/
def checkDirectiveLine (delim line : List Char) : Option Bool :=
  if containsSub delim line then
    match pyStripWs line with
    | [] => none
    | c :: _ => some (c == '#')
  else some false

/-- Line 163: everything after the first occurrence of the autotest
delimiter, split on `;`, each piece stripped of whitespace.  Empty
pieces are kept, exactly as `str.split(';')` keeps them. -/
def extractSnippets (delim line : List Char) : List (List Char) :=
  (pySplit ';' (afterFirst delim line)).map pyStripWs

/-- The snippet extraction as claim C4 words it: the substring strictly
after the marker token, trimmed of one trailing separator character if
present, split on `;`, each piece trimmed of whitespace, empty pieces
dropped. -/
def extractSnippetsClaimed (delim line : List Char) : List (List Char) :=
  let tail := afterFirst delim line
  let tail2 := if tail.getLast? = some ';' then tail.dropLast else tail
  ((pySplit ';' tail2).map pyStripWs).filter (fun p => !p.isEmpty)

/-! ## Data model for the parsed `tests.yml` document -/

/-- One entry of the `templates` mapping: a YAML dictionary whose
recognized keys are `test`, `variables` and `hash` (an absent key is
`none`, producing the corresponding `KeyError` on access). -/
structure TemplEntry where
  testT : Option (List Char)
  varsT : Option (List (List Char × List Char))
  hashT : Option (List Char)
deriving DecidableEq, Repr

/-- The parsed YAML document, restricted to the top-level keys the
source reads: `dispatch`, `templates` and `setup`. -/
structure YamlDoc where
  dispatch : Option (List Char)
  templates : Option (List (List Char × TemplEntry))
  setup : Option (List Char)
deriving DecidableEq, Repr

/-- What opening `tests.yml` can yield: the file is missing
(`FileNotFoundError`), it holds invalid YAML (`yaml.parser.ParserError`),
or it parses to a document. -/
inductive FileInput where
  | missing
  | parseFailure
  | doc (y : YamlDoc)
deriving DecidableEq

/-- The exceptions the translated code can raise. -/
inductive PErr where
  /-- `yaml.parser.ParserError` re-raised at line 226. -/
  | yamlParserError
  /-- A Python `KeyError` carrying the missing key. -/
  | keyError (k : String)
  /-- The `RuntimeError` of lines 136-140 (the spec's
  `UngradedAutotestError`). -/
  | ungradedAutotest
  /-- `IndexError` from `line.strip()[0]` on line 130. -/
  | indexError
  /-- `TypeError` from concatenating a `str` with `None` in the debug
  logging at lines 238 and 276. -/
  | typeError
  /-- `CellExecutionError` (the spec's `KernelExecutionError`),
  carrying the formatted message. -/
  | execError (message : List Char)
  /-- `NameError` from the unresolvable name `Empty` at line 312. -/
  | nameError (n : String)
  /-- `TimeoutError` (the spec's `KernelTimeoutError`). -/
  | timeoutError
deriving DecidableEq, Repr

/-- The state `_load_test_template_file` leaves behind: `self.tests`
with `self.dispatch_template` already extracted. -/
structure LoadedTests where
  dispatchTemplate : List Char
  templates : Option (List (List Char × TemplEntry))
  setup : Option (List Char)
deriving DecidableEq, Repr

/-- A value bound into a jinja2 render: either a plain string (the
`snippet` / `salt` bindings) or the `{'code': ..., 'val': ...}`
dictionary built for each test variable (lines 190-191). -/
inductive BindVal where
  | strV (v : List Char)
  | codeVal (code val : List Char)
deriving DecidableEq, Repr

/-- The lazily initialized per-notebook session: `self.tests` plus the
sanitizer chosen for the kernel language (lines 150-156). -/
structure Session where
  tests : LoadedTests
  sanitizer : List Char → List Char

/-- A notebook cell, as far as the preprocessor reads it.  The
`isGradeCell` field carries the value of the external collaborator
predicate `utils.is_grade(cell)` (line 122). -/
structure Cell where
  cellType : List Char
  source : List Char
  isGradeCell : Bool

/-- The resource bag; the source reads `resources['kernel_name']`
(line 155).  The notebook path feeding the file open is absorbed into
`Collab.file`. -/
structure Resources where
  kernelName : List Char

/-- The external collaborators: the base `Execute.preprocess_cell`
step, the file system, the jinja2 renderer, the kernel round trip
(`_execute_code_snippet`, whose internals are modelled separately by
`runLoop` below) and the salt generator `secrets.token_hex(8)` read
off an abstract randomness tape. -/
structure Collab where
  base : Cell → Resources → Cell × Resources
  file : FileInput
  render : List Char → List (List Char × BindVal) → List Char
  execSnippet : List Char → Except PErr (Option (List Char))
  salt : Nat → List Char

/-- The configurable traits of `InstantiateTests` that the translated
code reads. -/
structure Config where
  autotestDelimiter : List Char
  hashedDelimiter : List Char
  enforceMetadata : Bool

/-- The mutable state of the line scan in `preprocess_cell`:
`new_lines`, the lazily loaded session, and the position on the
randomness tape. -/
structure ScanState where
  newLines : List (List Char)
  sess : Option Session
  saltCtr : Nat

/-- Line 156: `self.output_sanitizers.get(resources['kernel_name'],
lambda x: x)` with `output_sanitizers = {'ir': sanitize_R_output}`. -/
def selectSanitizer (kernelName : List Char) : List Char → List Char :=
  if kernelName = "ir".toList then sanitize_R_output else id

/-- `_load_test_template_file` (lines 213-231): a missing file is
caught and replaced by an empty dictionary, a parse error is re-raised,
and then `self.dispatch_template = self.tests['dispatch']` is executed
unconditionally — on an empty dictionary this raises
`KeyError('dispatch')`.  If a `setup` entry exists its code is executed
at once. -/
def loadTestTemplateFile (execSnippet : List Char → Except PErr (Option (List Char)))
    (file : FileInput) : Except PErr LoadedTests :=
  match file with
  | .parseFailure => .error .yamlParserError
  | .missing => .error (.keyError "dispatch")
  | .doc y =>
    match y.dispatch with
    | none => .error (.keyError "dispatch")
    | some d =>
      match y.setup with
      | some sc =>
        match execSnippet sc with
        | .error e => .error e
        | .ok _ => .ok ⟨d, y.templates, y.setup⟩
      | none => .ok ⟨d, y.templates, y.setup⟩

/-- The literal key `"default"`. -/
def defaultKey : List Char :=
  "default".toList

/-- Lines 241-245:
`self.tests['templates'].get(dispatch_result, self.tests['templates']['default'])`.
Python evaluates the fallback argument of `.get` eagerly, so the
`default` entry is looked up — and its absence raises
`KeyError('default')` — even when the dispatched category itself is
present. -/
def selectTemplate (templates : Option (List (List Char × TemplEntry)))
    (dispatchResult : List Char) : Except PErr TemplEntry :=
  match templates with
  | none => .error (.keyError "templates")
  | some tmpl =>
    match tmpl.lookup defaultKey with
    | none => .error (.keyError "default")
    | some dflt => .ok ((tmpl.lookup dispatchResult).getD dflt)

/-- The test-case selection as claim C6 words it: the category's own
entry when present, else the `default` entry, an error only when
neither exists. -/
def selectTemplateClaimed (tmpl : List (List Char × TemplEntry))
    (dispatchResult : List Char) : Except PErr TemplEntry :=
  match tmpl.lookup dispatchResult with
  | some e => .ok e
  | none =>
    match tmpl.lookup defaultKey with
    | some dflt => .ok dflt
    | none => .error (.keyError "default")

/-- `_get_templates` (lines 233-258): render and execute the dispatch
code, log the result (a `None` result makes the string concatenation on
line 238 raise `TypeError`), select the template entry, and read its
`test` / `variables` / (if hashing) `hash` items. -/
def getTemplatesStep (cb : Collab) (sess : Session) (snippet : List Char)
    (useHash : Bool) :
    Except PErr (List Char × List (List Char × List Char) × Option (List Char)) := do
  let dispatchCode := cb.render sess.tests.dispatchTemplate
    [("snippet".toList, BindVal.strV snippet)]
  let dres ← cb.execSnippet dispatchCode
  match dres with
  | none => throw .typeError
  | some dr =>
    let test ← selectTemplate sess.tests.templates dr
    match test.testT with
    | none => throw (.keyError "test")
    | some tt =>
      match test.varsT with
      | none => throw (.keyError "variables")
      | some vs =>
        if useHash then
          match test.hashT with
          | none => throw (.keyError "hash")
          | some h => pure (tt, vs, some h)
        else pure (tt, vs, none)

/-- `_evaluate_variable_snippet` (lines 260-277): optionally wrap the
variable snippet in the hash template (binding `snippet` and `salt`),
render with the directive snippet bound, execute, and log the value —
a `None` value makes the concatenation on line 276 raise `TypeError`. -/
def evaluateVariableSnippet (cb : Collab) (snippet varSnippet salt : List Char)
    (hashSnippet : Option (List Char)) : Except PErr (List Char × List Char) := do
  let pre :=
    match hashSnippet with
    | some hs => cb.render hs
        [("snippet".toList, BindVal.strV varSnippet), ("salt".toList, BindVal.strV salt)]
    | none => varSnippet
  let inst := cb.render pre [("snippet".toList, BindVal.strV snippet)]
  let v ← cb.execSnippet inst
  match v with
  | none => throw .typeError
  | some vv => pure (inst, vv)

/-- Lines 171-206, body for one snippet: fetch templates, draw a fresh
salt, evaluate every variable snippet in declaration order, render the
test template with `snippet` and the variables bound, and append the
rendered lines plus one blank line. -/
def processSnippet (cb : Collab) (sess : Session) (useHash : Bool)
    (snippet : List Char) (st : ScanState) : Except PErr ScanState := do
  let (tt, vs, hs) ← getTemplatesStep cb sess snippet useHash
  let salt := cb.salt st.saltCtr
  let tvs ← vs.foldlM
    (fun (acc : List (List Char × BindVal)) nv => do
      let (code, val) ← evaluateVariableSnippet cb snippet nv.2 salt hs
      pure (acc ++ [(nv.1, BindVal.codeVal code val)]))
    []
  let instantiated := cb.render tt (("snippet".toList, BindVal.strV snippet) :: tvs)
  pure { st with
         newLines := st.newLines ++ pySplit '\n' instantiated ++ [[]],
         saltCtr := st.saltCtr + 1 }

/-- Lines 146-206, body for one directive line after the grade check:
lazily load the session (appending the setup code and choosing the
sanitizer on first load, lines 150-156), read the hash marker (line
159), extract the snippets (line 163) and process each in order. -/
def processDirective (cfg : Config) (cb : Collab) (res : Resources)
    (st : ScanState) (line : List Char) : Except PErr ScanState := do
  let (st1, sess) ←
    match st.sess with
    | some s => pure (st, s)
    | none => do
      let lt ← loadTestTemplateFile cb.execSnippet cb.file
      let nl :=
        match lt.setup with
        | some sc => st.newLines ++ [sc]
        | none => st.newLines
      let s : Session := ⟨lt, selectSanitizer res.kernelName⟩
      pure (({ st with newLines := nl, sess := some s } : ScanState), s)
  let useHash := containsSub cfg.hashedDelimiter (beforeFirst cfg.autotestDelimiter line)
  let snippets := extractSnippets cfg.autotestDelimiter line
  snippets.foldlM (fun st2 snip => processSnippet cb sess useHash snip st2) st1

/-- One iteration of the line loop (lines 126-206): pass the line
through unless it is a directive line; on a directive line in a
non-grade cell with metadata enforcement on, raise at once (lines
134-140), before any template work and before the cell source is
rewritten. -/
def processLine (cfg : Config) (cb : Collab) (isGrade : Bool) (res : Resources)
    (st : ScanState) (line : List Char) : Except PErr ScanState :=
  match checkDirectiveLine cfg.autotestDelimiter line with
  | none => .error .indexError
  | some false => .ok { st with newLines := st.newLines ++ [line] }
  | some true =>
    if !isGrade && cfg.enforceMetadata then .error .ungradedAutotest
    else processDirective cfg cb res st line

/-- `preprocess_cell` (lines 110-211): run the base executor, return
non-code cells unchanged, scan the lines, and replace the cell source
by the joined accumulated lines. -/
def preprocessCell (cfg : Config) (cb : Collab) (tests0 : Option Session)
    (cell : Cell) (res : Resources) :
    Except PErr (Cell × Resources × Option Session) :=
  match cb.base cell res with
  | (cell1, res1) =>
    if cell1.cellType ≠ "code".toList then .ok (cell1, res1, tests0)
    else
      match (pySplit '\n' cell1.source).foldlM
          (fun st line => processLine cfg cb cell1.isGradeCell res1 st line)
          ⟨[], tests0, 0⟩ with
      | .error e => .error e
      | .ok stF => .ok ({ cell1 with source := pyJoin '\n' stF.newLines }, res1, stF.sess)

/-! ## The kernel session client (`_execute_code_snippet`, lines 280-347)

The two message channels are asynchronous; the loop is driven here by a
trace of per-iteration poll outcomes (`StepInput`): the value of
`self._passed_deadline(deadline)`, the outcome of
`self._poll_for_reply(...)` on the shell channel, and the outcome of
`self.kc.iopub_channel.get_msg(...)` (`none` = the poll raised
`queue.Empty`).  Clock arithmetic (`monotonic`, `_timeout_with_deadline`)
is abstracted into the `deadlinePassed` bit of each step. -/

/-- The kinds of iopub message the loop distinguishes (lines 336-344). -/
inductive IMsgType where
  /-- `execute_result`, `display_data` or `update_display_data`,
  carrying `content['data']['text/plain']`. -/
  | result (payload : List Char)
  /-- An `error` message carrying `content['traceback']` (a list of
  strings, joined with newlines at line 56). -/
  | errorMsg (traceback : List (List Char))
  /-- A `status` message with `execution_state == 'idle'`. -/
  | statusIdle
  /-- A `status` message with another execution state. -/
  | statusOther
  /-- Any other message type. -/
  | otherMsg
deriving DecidableEq, Repr

/-- An iopub message: whether `msg['parent_header']['msg_id']` equals
the current request id, and its processed kind. -/
structure IMsg where
  parentMatches : Bool
  typ : IMsgType
deriving DecidableEq, Repr

/-- The poll outcomes offered to one iteration of the `while` loop. -/
structure StepInput where
  deadlinePassed : Bool
  reply : Option Unit
  iopub : Option IMsg
deriving DecidableEq, Repr

/-- The inputs of one `_execute_code_snippet` call: the submitted code,
the sanitizer in `self.sanitizer`, and the `raise_on_iopub_timeout`
trait (consulted at line 318, inside the `except Empty:` handler). -/
structure KConfig where
  code : List Char
  sanitizer : List Char → List Char
  raiseOnIopubTimeout : Bool

/-- The control state of the `while more_output or polling_exec_reply`
loop, together with the last value bound to the local `msg` (lines
311, 325): when `more_output` is already false the loop re-examines
that stale message. -/
structure LoopState where
  moreOutput : Bool
  pollingExecReply : Bool
  lastMsg : Option IMsg

/-- How one call of `_execute_code_snippet` ends. -/
inductive KOutcome where
  /-- Line 337: `return self.sanitizer(content['data']['text/plain'])`. -/
  | output (text : List Char)
  /-- Line 340: `CellExecutionError.from_code_and_msg(code, content)`. -/
  | execErrorOut (message : List Char)
  /-- The iopub poll raised `queue.Empty`, and evaluating the clause
  `except Empty:` (line 312) raises `NameError`: the module never
  imports `Empty`, so neither the benign-continue path nor the
  `TimeoutError` / warning branch (lines 313-323) is reachable. -/
  | nameErrorEmpty
  /-- Line 347: the loop finished and the function returns `None`. -/
  | completedNone
  /-- The supplied trace ended while the loop was still running. -/
  | fuelOut
  /-- The stale-message path ran before any message was ever bound
  (unreachable from the initial state; Python would raise
  `UnboundLocalError`). -/
  | unboundMsg
deriving DecidableEq, Repr

/-- `exec_err_msg.format(code=code, traceback=tb)` (lines 56-66). -/
def execErrMsgText (code tb : List Char) : List Char :=
  "An error occurred while executing the following code:\n------------------\n".toList
  ++ code
  ++ "\n------------------\n".toList
  ++ tb
  ++ "\n".toList

/-- The effect of processing one message (lines 325-346). -/
inductive MsgEffect where
  /-- A `return` or an uncaught raise: the loop ends with this outcome. -/
  | ret (o : KOutcome)
  /-- Continue looping; `clearMore` is true when `CellExecutionComplete`
  was caught and `more_output` is cleared (lines 342-346). -/
  | cont (clearMore : Bool)
deriving DecidableEq, Repr

/-- Lines 325-346: drop messages of foreign requests, return the
sanitized payload of a result-bearing message, raise
`CellExecutionError` on an error message, and treat an idle status as
the completion signal. -/
def handleMsg (cfg : KConfig) (m : IMsg) : MsgEffect :=
  if !m.parentMatches then .cont false
  else
    match m.typ with
    | .result payload => .ret (.output (cfg.sanitizer payload))
    | .errorMsg tb => .ret (.execErrorOut (execErrMsgText cfg.code (pyJoin '\n' tb)))
    | .statusIdle => .cont true
    | .statusOther => .cont false
    | .otherMsg => .cont false

/-- The `while more_output or polling_exec_reply` loop of
`_execute_code_snippet` (lines 291-347), one trace step per iteration:
check the loop condition; while polling for the reply, a passed
deadline clears `polling_exec_reply` and restarts the loop (lines
293-295), otherwise an arrived reply clears it (lines 300-302); then
poll iopub if `more_output` — a `queue.Empty` outcome reaches the
broken `except Empty:` clause — else re-process the stale `msg`. -/
def runLoop (cfg : KConfig) : LoopState → List StepInput → KOutcome
  | st, [] =>
    if !st.moreOutput && !st.pollingExecReply then .completedNone else .fuelOut
  | st, inp :: rest =>
    if !st.moreOutput && !st.pollingExecReply then .completedNone
    else if st.pollingExecReply && inp.deadlinePassed then
      runLoop cfg { st with pollingExecReply := false } rest
    else
      let pr := st.pollingExecReply && inp.reply.isNone
      if st.moreOutput then
        match inp.iopub with
        | none => .nameErrorEmpty
        | some m =>
          match handleMsg cfg m with
          | .ret o => o
          | .cont clear =>
            runLoop cfg ⟨!clear, pr, some m⟩ rest
      else
        match st.lastMsg with
        | none => .unboundMsg
        | some m =>
          match handleMsg cfg m with
          | .ret o => o
          | .cont _ =>
            runLoop cfg ⟨false, pr, st.lastMsg⟩ rest

/-- The loop state right after `self.kc.execute(code, ...)`:
`more_output = True`, `polling_exec_reply = True`, no message bound. -/
def initLoopState : LoopState :=
  ⟨true, true, none⟩

/-- The names bound at module level in `instantiatetests.py`, read off
its `import` statements (lines 1-14) and its own top-level definitions.
Name resolution for the bare name `Empty` in `except Empty:` (line 312)
searches these and the Python builtins; `queue.Empty` is not among
them. -/
def instantiatetestsModuleBindings : List String :=
  ["os", "yaml", "j2", "re", "utils", "Bool", "List", "Integer", "Unicode",
   "dedent", "Execute", "secrets", "monotonic",
   "sanitize_R_output", "CellExecutionComplete", "CellExecutionError",
   "exec_err_msg", "InstantiateTests"]

/-! ## Concrete instances used by the witnesses and counterexamples -/

/-- The default autotest configuration: `AUTOTEST` / `HASHED` markers,
metadata enforcement on (lines 72-104). -/
def cfgW : Config :=
  ⟨"AUTOTEST".toList, "HASHED".toList, true⟩

/-- A concrete collaborator bundle: identity base step, missing tests
file, identity-ish renderer, a kernel that answers the empty string,
empty salts. -/
def collabW : Collab :=
  ⟨fun c r => (c, r), .missing, fun t _ => t, fun _ => .ok (some []), fun _ => []⟩

/-- A kernel oracle that succeeds with an empty textual result. -/
def trivialExecW : List Char → Except PErr (Option (List Char)) :=
  fun _ => .ok (some [])

/-- A non-grade code cell holding one directive line. -/
def cellC5 : Cell :=
  ⟨"code".toList, "x = 1\n#AUTOTEST x".toList, false⟩

/-- A grade code cell with no autotest marker anywhere. -/
def cellC7 : Cell :=
  ⟨"code".toList, "x = 1\ny = 2\n".toList, true⟩

/-- A concrete resource bag. -/
def resW : Resources :=
  ⟨"python3".toList⟩

/-- Counterexample input for sanitizer idempotence: a double-quoted
text wrapped in single quotes. -/
def quotedSample : List Char :=
  ['\'', '"', 'a', 'b', 'c', '"', '\'']

/-- Sample R console output with an index marker. -/
def rSample : List Char :=
  "[1] abc".toList

/-- The `AUTOTEST` marker token. -/
def autotestTok : List Char :=
  "AUTOTEST".toList

/-- A directive line with a trailing semicolon (so `split(';')` yields
a trailing empty piece). -/
def c4Line : List Char :=
  "#AUTOTEST x;".toList

/-- Text before the marker on the C4 witness line. -/
def c4Pre : List Char :=
  "# ".toList

/-- Text after the marker on the C4 witness line. -/
def c4Post : List Char :=
  " x; y".toList

/-- A template entry for the `int` category. -/
def entryInt : TemplEntry :=
  ⟨some "assert {{snippet}} == 5".toList, some [], none⟩

/-- A template entry for the `default` category. -/
def entryDefault : TemplEntry :=
  ⟨some "assert {{snippet}}".toList, some [], none⟩

/-- A `templates` mapping holding `int` but no `default`. -/
def tmplNoDefault : List (List Char × TemplEntry) :=
  [("int".toList, entryInt)]

/-- A `templates` mapping holding both `int` and `default`. -/
def tmplBoth : List (List Char × TemplEntry) :=
  [("int".toList, entryInt), ("default".toList, entryDefault)]

/-- Kernel-client inputs for the loop witnesses. -/
def kcfgW : KConfig :=
  ⟨"1 + 1".toList, id, true⟩

/-- A benign trace step: an unrelated message arrives on iopub. -/
def benignStepW : StepInput :=
  ⟨false, none, some ⟨false, .otherMsg⟩⟩

/-- A trace step delivering the reply and a matching idle status. -/
def idleStepW : StepInput :=
  ⟨false, some (), some ⟨true, .statusIdle⟩⟩

/-- A trace step delivering a matching error message. -/
def errStepW : StepInput :=
  ⟨false, none, some ⟨true, .errorMsg ["ZeroDivisionError".toList]⟩⟩

/-! ## Helper lemmas -/

theorem exceptBind_ok {ε α β : Type} (x : α) (g : α → Except ε β) :
    (Except.ok x >>= g : Except ε β) = g x :=
  rfl

theorem exceptBind_error {ε α β : Type} (e : ε) (g : α → Except ε β) :
    ((Except.error e : Except ε α) >>= g : Except ε β) = Except.error e :=
  rfl

theorem mem_of_isPrefixOf (l t : List Char) (h : l.isPrefixOf t = true) :
    ∀ c ∈ l, c ∈ t := by
  induction l generalizing t with
  | nil => intro c hc; cases hc
  | cons a l ih =>
    cases t with
    | nil => simp [List.isPrefixOf] at h
    | cons b t =>
      simp only [List.isPrefixOf, Bool.and_eq_true, beq_iff_eq] at h
      obtain ⟨rfl, hpl⟩ := h
      intro c hc
      rcases List.mem_cons.mp hc with rfl | hcl
      · exact List.mem_cons_self c t
      · exact List.mem_cons_of_mem _ (ih t hpl c hcl)

theorem mem_of_containsSub (needle hay : List Char)
    (h : containsSub needle hay = true) {c : Char} (hc : c ∈ needle) :
    c ∈ hay := by
  induction hay with
  | nil =>
    simp only [containsSub, List.isEmpty_iff] at h
    subst h; cases hc
  | cons a t ih =>
    rw [containsSub, Bool.or_eq_true] at h
    rcases h with h | h
    · exact mem_of_isPrefixOf _ _ h c hc
    · exact List.mem_cons_of_mem a (ih h)

theorem mem_dropWhile_of_not (p : Char → Bool) (l : List Char) (c : Char)
    (hc : c ∈ l) (hp : p c = false) : c ∈ l.dropWhile p := by
  induction l with
  | nil => cases hc
  | cons a t ih =>
    rw [List.dropWhile_cons]
    by_cases ha : p a = true
    · rw [ha]
      simp only [if_true]
      rcases List.mem_cons.mp hc with rfl | hct
      · rw [hp] at ha; cases ha
      · exact ih hct
    · rw [Bool.not_eq_true] at ha
      rw [ha]
      simpa using hc

theorem pyStripWs_ne_nil_of_mem {c : Char} {l : List Char}
    (hc : c ∈ l) (hp : isPySpace c = false) : pyStripWs l ≠ [] := by
  have h1 : c ∈ l.dropWhile isPySpace := mem_dropWhile_of_not _ _ _ hc hp
  have h2 : c ∈ (l.dropWhile isPySpace).reverse := List.mem_reverse.mpr h1
  have h3 : c ∈ (l.dropWhile isPySpace).reverse.dropWhile isPySpace :=
    mem_dropWhile_of_not _ _ _ h2 hp
  have h4 : c ∈ pyStripWs l := by
    unfold pyStripWs pyStripBy
    exact List.mem_reverse.mpr h3
  exact List.ne_nil_of_mem h4

theorem pyStripBy_eq_self (p : Char → Bool) (l : List Char)
    (hh : ∀ c, l.head? = some c → p c = false)
    (hl : ∀ c, l.getLast? = some c → p c = false) :
    pyStripBy p l = l := by
  unfold pyStripBy
  have h1 : l.dropWhile p = l := by
    cases l with
    | nil => rfl
    | cons a t =>
      rw [List.dropWhile_cons, hh a rfl]
      simp
  rw [h1]
  have h2 : l.reverse.dropWhile p = l.reverse := by
    cases hr : l.reverse with
    | nil => rfl
    | cons a t =>
      have ha : l.getLast? = some a := by
        rw [← List.head?_reverse, hr]; rfl
      rw [List.dropWhile_cons, hl a ha]
      simp
  rw [h2, List.reverse_reverse]

theorem reSubAux_eq_self :
    ∀ (n : Nat) (s : List Char), hasIndexMarker s = false →
    reSubIndexMarkersAux n s = s
  | 0, _, _ => rfl
  | _ + 1, [], _ => rfl
  | n + 1, c :: cs, h => by
    rw [hasIndexMarker, Bool.or_eq_false_iff] at h
    have hm : matchIndexMarker (c :: cs) = none := by
      cases hmm : matchIndexMarker (c :: cs) with
      | none => rfl
      | some r => rw [hmm] at h; simp at h
    rw [reSubIndexMarkersAux, hm]
    rw [reSubAux_eq_self n cs h.2]

theorem reSub_eq_self (s : List Char) (h : hasIndexMarker s = false) :
    reSubIndexMarkers s = s :=
  reSubAux_eq_self s.length s h

theorem runLoop_done (cfg : KConfig) (last : Option IMsg) :
    ∀ steps, runLoop cfg ⟨false, false, last⟩ steps = .completedNone
  | [] => by simp [runLoop]
  | _ :: _ => by simp [runLoop]

theorem handleMsg_benign (cfg : KConfig) (m : IMsg)
    (h : m.parentMatches = false ∨ m.typ = .statusOther ∨ m.typ = .otherMsg) :
    handleMsg cfg m = .cont false := by
  rcases h with h | h | h
  · simp [handleMsg, h]
  · cases hpm : m.parentMatches with
    | false => simp [handleMsg, hpm]
    | true => simp [handleMsg, hpm, h]
  · cases hpm : m.parentMatches with
    | false => simp [handleMsg, hpm]
    | true => simp [handleMsg, hpm, h]

theorem foldlM_passthrough (cfg : Config) (cb : Collab) (isGrade : Bool)
    (res : Resources) :
    ∀ (lines : List (List Char)) (st : ScanState),
    (∀ l ∈ lines, containsSub cfg.autotestDelimiter l = false) →
    lines.foldlM (fun st line => processLine cfg cb isGrade res st line) st
      = .ok { st with newLines := st.newLines ++ lines }
  | [], st, _ => by
    show pure st = Except.ok { st with newLines := st.newLines ++ [] }
    rw [List.append_nil]
    rfl
  | l :: ls, st, h => by
    have hl : containsSub cfg.autotestDelimiter l = false := h l (by simp)
    have hls : ∀ a ∈ ls, containsSub cfg.autotestDelimiter a = false :=
      fun a ha => h a (List.mem_cons_of_mem l ha)
    have hcl : checkDirectiveLine cfg.autotestDelimiter l = some false := by
      simp [checkDirectiveLine, hl]
    rw [List.foldlM_cons]
    have hpl : processLine cfg cb isGrade res st l
        = .ok { st with newLines := st.newLines ++ [l] } := by
      simp [processLine, hcl]
    rw [hpl, exceptBind_ok,
      foldlM_passthrough cfg cb isGrade res ls _ hls]
    simp

theorem foldlM_directive_error (cfg : Config) (cb : Collab) (res : Resources)
    (hdel : ∃ c ∈ cfg.autotestDelimiter, isPySpace c = false)
    (henf : cfg.enforceMetadata = true) :
    ∀ (lines : List (List Char)) (st : ScanState),
    (∃ l ∈ lines, containsSub cfg.autotestDelimiter l = true ∧
        (pyStripWs l).head? = some '#') →
    lines.foldlM (fun st line => processLine cfg cb false res st line) st
      = .error .ungradedAutotest
  | [], _, hdir => by simp at hdir
  | l :: ls, st, hdir => by
    obtain ⟨c0, hc0, hns⟩ := hdel
    cases hcont : containsSub cfg.autotestDelimiter l with
    | false =>
      have hcl : checkDirectiveLine cfg.autotestDelimiter l = some false := by
        simp [checkDirectiveLine, hcont]
      have hpl : processLine cfg cb false res st l
          = .ok { st with newLines := st.newLines ++ [l] } := by
        simp [processLine, hcl]
      rw [List.foldlM_cons, hpl, exceptBind_ok]
      apply foldlM_directive_error cfg cb res ⟨c0, hc0, hns⟩ henf
      obtain ⟨l', hl', hd⟩ := hdir
      rcases List.mem_cons.mp hl' with rfl | hmem
      · rw [hd.1] at hcont; cases hcont
      · exact ⟨l', hmem, hd⟩
    | true =>
      have hmem : c0 ∈ l := mem_of_containsSub _ _ hcont hc0
      have hne : pyStripWs l ≠ [] := pyStripWs_ne_nil_of_mem hmem hns
      cases hsw : pyStripWs l with
      | nil => exact absurd hsw hne
      | cons a t =>
        by_cases ha : a = '#'
        · subst ha
          have hcl : checkDirectiveLine cfg.autotestDelimiter l = some true := by
            simp [checkDirectiveLine, hcont, hsw]
          have hpl : processLine cfg cb false res st l
              = .error .ungradedAutotest := by
            simp [processLine, hcl, henf]
          rw [List.foldlM_cons, hpl, exceptBind_error]
        · have hcl : checkDirectiveLine cfg.autotestDelimiter l = some false := by
            simp [checkDirectiveLine, hcont, hsw, ha]
          have hpl : processLine cfg cb false res st l
              = .ok { st with newLines := st.newLines ++ [l] } := by
            simp [processLine, hcl]
          rw [List.foldlM_cons, hpl, exceptBind_ok]
          apply foldlM_directive_error cfg cb res ⟨c0, hc0, hns⟩ henf
          obtain ⟨l', hl', hd⟩ := hdir
          rcases List.mem_cons.mp hl' with rfl | hmem'
          · rw [hsw] at hd
            simp at hd
            exact absurd hd.2 ha
          · exact ⟨l', hmem', hd⟩

theorem runLoop_benign_then_idle (cfg : KConfig) (istep : StepInput)
    (rest : List StepInput)
    (h1 : istep.deadlinePassed = false) (h2 : istep.reply.isSome = true)
    (h3 : istep.iopub = some ⟨true, .statusIdle⟩) :
    ∀ (pre : List StepInput),
    (∀ s ∈ pre, s.deadlinePassed = false ∧
        ∃ m, s.iopub = some m ∧
          (m.parentMatches = false ∨ m.typ = .statusOther ∨ m.typ = .otherMsg)) →
    ∀ (pr : Bool) (last : Option IMsg),
    runLoop cfg ⟨true, pr, last⟩ (pre ++ istep :: rest) = .completedNone := by
  intro pre
  induction pre with
  | nil =>
    intro _ pr last
    obtain ⟨u, hu⟩ := Option.isSome_iff_exists.mp h2
    obtain ⟨dp, rep, io⟩ := istep
    subst h1; subst h3; subst hu
    rw [List.nil_append]
    simp [runLoop, handleMsg]
    exact runLoop_done cfg _ rest
  | cons s pre ih =>
    intro hpre pr last
    obtain ⟨hdp, m, hm, hben⟩ := hpre s (List.mem_cons_self s pre)
    have hrest : ∀ x ∈ pre, x.deadlinePassed = false ∧
        ∃ m, x.iopub = some m ∧
          (m.parentMatches = false ∨ m.typ = .statusOther ∨ m.typ = .otherMsg) :=
      fun x hx => hpre x (List.mem_cons_of_mem s hx)
    obtain ⟨dp, rep, io⟩ := s
    subst hdp; subst hm
    rw [List.cons_append]
    simp [runLoop, handleMsg_benign cfg m hben]
    exact ih hrest _ (some m)

/-! ## The claims -/

/-- Claim C1 (code bug).  The claim says the branch for an iopub poll
timeout after the reply has arrived either raises the timeout error
(strict mode) or logs and terminates with no output (tolerant mode).
In the code as written that branch is dead: `queue.Empty` is never
imported, so the clause `except Empty:` (line 312) raises `NameError`
the moment the poll times out — with the reply already received
(`polling_exec_reply` false) just as in any other state — and neither
the `TimeoutError` nor the warning path of lines 313-323 can run.
The second conjunct records that `Empty` is not among the names bound
at module level. -/
theorem c1_iopub_timeout_nameerror :
    (∀ (cfg : KConfig) (last : Option IMsg) (dp : Bool) (rep : Option Unit)
        (rest : List StepInput),
      runLoop cfg ⟨true, false, last⟩ (⟨dp, rep, none⟩ :: rest) = .nameErrorEmpty)
    ∧ instantiatetestsModuleBindings.contains "Empty" = false := by
  refine ⟨fun cfg last dp rep rest => ?_, by decide⟩
  simp [runLoop]

/-- Claim C2, counterexample.  The claim says that with the template
file missing, loading succeeds with an empty test document and raises
no error at load time.  In the code, after `FileNotFoundError` is
caught and `self.tests = {}` is set, line 228 executes
`self.dispatch_template = self.tests['dispatch']` and the load call
itself raises `KeyError('dispatch')`. -/
theorem c2_missing_file_counterexample :
    (loadTestTemplateFile trivialExecW .missing).isOk = false :=
  rfl

/-- Claim C2 as amended: when the template file is missing, the
file-not-found condition is caught and an empty document substituted,
but `_load_test_template_file` then immediately raises
`KeyError('dispatch')` inside the same call — the error names
`dispatch`, not the `default` category, and it surfaces at load time
(the load itself being deferred to the first directive). -/
theorem c2_missing_file_raises_dispatch_keyerror :
    ∀ ex : List Char → Except PErr (Option (List Char)),
    loadTestTemplateFile ex .missing = .error (.keyError "dispatch") :=
  fun _ => rfl

/-- Claim C3, counterexample.  The R sanitizer is not idempotent: on
input `'"abc"'` the first application strips the outer single quotes,
and only the second strips the now-exposed double quotes. -/
theorem c3_sanitizer_not_idempotent :
    sanitize_R_output (sanitize_R_output quotedSample)
      ≠ sanitize_R_output quotedSample := by
  decide

/-- Claim C3 as amended: `sanitize(sanitize(x)) = sanitize(x)` does not
hold for every input of the registered R sanitizer; it holds whenever
the sanitized value contains no remaining index-prefix marker and
neither begins nor ends with a double- or single-quote character
(stripping can expose new quotes, and a deletion can create a new
marker, as the counterexample shows for quotes). -/
theorem c3_sanitizer_idempotent_conditional (x : List Char)
    (hm : hasIndexMarker (sanitize_R_output x) = false)
    (hq : noEdgeQuotes (sanitize_R_output x) = true) :
    sanitize_R_output (sanitize_R_output x) = sanitize_R_output x := by
  have hq' := hq
  unfold noEdgeQuotes at hq'
  rw [Bool.and_eq_true] at hq'
  obtain ⟨hqh, hql⟩ := hq'
  have hh : ∀ c, (sanitize_R_output x).head? = some c → c ≠ '"' ∧ c ≠ '\'' := by
    intro c hc
    rw [hc] at hqh
    simpa using hqh
  have hl : ∀ c, (sanitize_R_output x).getLast? = some c → c ≠ '"' ∧ c ≠ '\'' := by
    intro c hc
    rw [hc] at hql
    simpa using hql
  show pyStripChar '\'' (pyStripChar '"' (reSubIndexMarkers (sanitize_R_output x)))
    = sanitize_R_output x
  rw [reSub_eq_self _ hm]
  have s1 : pyStripChar '"' (sanitize_R_output x) = sanitize_R_output x :=
    pyStripBy_eq_self _ _
      (fun c hc => beq_eq_false_iff_ne.mpr (hh c hc).1)
      (fun c hc => beq_eq_false_iff_ne.mpr (hl c hc).1)
  rw [s1]
  exact pyStripBy_eq_self _ _
    (fun c hc => beq_eq_false_iff_ne.mpr (hh c hc).2)
    (fun c hc => beq_eq_false_iff_ne.mpr (hl c hc).2)

/-- Witness for the amended C3 at a concrete R console output. -/
theorem c3_sanitizer_idempotent_witness :
    hasIndexMarker (sanitize_R_output rSample) = false ∧
    noEdgeQuotes (sanitize_R_output rSample) = true ∧
    sanitize_R_output (sanitize_R_output rSample) = sanitize_R_output rSample :=
  ⟨by decide, by decide,
   c3_sanitizer_idempotent_conditional rSample (by decide) (by decide)⟩

/-- Claim C4, counterexample.  On the directive line `#AUTOTEST x;`
the code produces `["x", ""]` — `str.split(';')` keeps the trailing
empty piece and nothing trims a trailing separator — while the claimed
extraction (one trailing separator trimmed, empty pieces dropped)
yields `["x"]`. -/
theorem c4_extraction_counterexample :
    extractSnippets autotestTok c4Line ≠ extractSnippetsClaimed autotestTok c4Line := by
  decide

/-- Claim C4 as amended: the extracted snippet sequence equals the
substring strictly after the first occurrence of the marker token,
split on `;`, each piece trimmed of surrounding whitespace — with
empty pieces kept and no trailing separator removed. -/
theorem c4_extraction_amended (d p r : List Char)
    (hfirst : findSubIdx d (p ++ d ++ r) = some p.length) :
    extractSnippets d (p ++ d ++ r) = (List.splitOn ';' r).map pyStripWs := by
  unfold extractSnippets afterFirst
  rw [hfirst]
  have hdrop : (p ++ d ++ r).drop (p.length + d.length) = r := by
    rw [← List.length_append]
    exact List.drop_left _ _
  show (List.splitOn ';' ((p ++ d ++ r).drop (p.length + d.length))).map pyStripWs
    = (List.splitOn ';' r).map pyStripWs
  rw [hdrop]

/-- Witness for the amended C4 on the line `# AUTOTEST x; y`. -/
theorem c4_extraction_witness :
    findSubIdx autotestTok (c4Pre ++ autotestTok ++ c4Post) = some c4Pre.length ∧
    extractSnippets autotestTok (c4Pre ++ autotestTok ++ c4Post)
      = (List.splitOn ';' c4Post).map pyStripWs :=
  ⟨by decide, c4_extraction_amended autotestTok c4Pre c4Post (by decide)⟩

/-- Claim C5 (confirmed): on a code cell that is not a grade cell, with
metadata enforcement enabled and at least one directive line present,
`preprocess_cell` raises at lines 136-140 (the `RuntimeError` the spec
names `UngradedAutotestError`) — before the session is loaded, before
any template work, and before the assignment to `cell.source` at line
209, so no partially rewritten source is committed.  (The delimiter
must contain a non-whitespace character so that the guard on earlier
lines cannot itself fault, cf. C10.) -/
theorem c5_ungraded_autotest_raises (cfg : Config) (cb : Collab)
    (tests0 : Option Session) (cell : Cell) (res : Resources)
    (hdel : ∃ c ∈ cfg.autotestDelimiter, isPySpace c = false)
    (hcode : (cb.base cell res).1.cellType = "code".toList)
    (hgrade : (cb.base cell res).1.isGradeCell = false)
    (henf : cfg.enforceMetadata = true)
    (hdir : ∃ l ∈ pySplit '\n' (cb.base cell res).1.source,
        containsSub cfg.autotestDelimiter l = true ∧
          (pyStripWs l).head? = some '#') :
    preprocessCell cfg cb tests0 cell res = .error .ungradedAutotest := by
  unfold preprocessCell
  rcases hb : cb.base cell res with ⟨c1, r1⟩
  rw [hb] at hcode hgrade hdir
  simp only [] at hcode hgrade hdir ⊢
  rw [if_neg (by simp [hcode])]
  rw [hgrade]
  rw [foldlM_directive_error cfg cb r1 hdel henf _ _ hdir]

/-- Witness for C5: a concrete non-grade code cell holding a directive
line is rejected. -/
theorem c5_ungraded_autotest_witness :
    (∃ c ∈ cfgW.autotestDelimiter, isPySpace c = false) ∧
    (∃ l ∈ pySplit '\n' (collabW.base cellC5 resW).1.source,
        containsSub cfgW.autotestDelimiter l = true ∧
          (pyStripWs l).head? = some '#') ∧
    preprocessCell cfgW collabW none cellC5 resW = .error .ungradedAutotest :=
  ⟨by decide, by decide,
   c5_ungraded_autotest_raises cfgW collabW none cellC5 resW
     (by decide) rfl rfl rfl (by decide)⟩

/-- Claim C6, counterexample.  The claim says selection returns the
category's own entry when it exists and errors only when neither the
category nor `default` exists.  Python evaluates the fallback argument
of `.get` eagerly, so on a mapping holding `int` but no `default`,
dispatching `int` raises `KeyError('default')` although the claimed
selection would return the `int` entry. -/
theorem c6_selection_counterexample :
    selectTemplate (some tmplNoDefault) "int".toList = .error (.keyError "default")
    ∧ selectTemplateClaimed tmplNoDefault "int".toList = .ok entryInt :=
  ⟨rfl, rfl⟩

/-- Claim C6 as amended: the selection returns the category's entry
when both the category and `default` are present, the `default` entry
when only `default` is present, and raises the configuration error
whenever `default` is absent — even if the category itself exists. -/
theorem c6_selection_amended (tmpl : List (List Char × TemplEntry))
    (cat : List Char) :
    (∀ e dflt, tmpl.lookup cat = some e →
        tmpl.lookup defaultKey = some dflt →
        selectTemplate (some tmpl) cat = .ok e)
    ∧ (tmpl.lookup cat = none →
        ∀ dflt, tmpl.lookup defaultKey = some dflt →
        selectTemplate (some tmpl) cat = .ok dflt)
    ∧ (tmpl.lookup defaultKey = none →
        selectTemplate (some tmpl) cat = .error (.keyError "default")) := by
  refine ⟨?_, ?_, ?_⟩
  · intro e dflt he hd
    simp [selectTemplate, hd, he]
  · intro hc dflt hd
    simp [selectTemplate, hd, hc]
  · intro hd
    simp [selectTemplate, hd]

/-- Witness for the amended C6 on concrete mappings with and without a
`default` entry. -/
theorem c6_selection_witness :
    tmplBoth.lookup "int".toList = some entryInt ∧
    tmplBoth.lookup defaultKey = some entryDefault ∧
    tmplNoDefault.lookup defaultKey = none ∧
    selectTemplate (some tmplBoth) "int".toList = .ok entryInt ∧
    selectTemplate (some tmplNoDefault) "str".toList = .error (.keyError "default") :=
  ⟨rfl, rfl, rfl,
   (c6_selection_amended tmplBoth "int".toList).1 entryInt entryDefault rfl rfl,
   (c6_selection_amended tmplNoDefault "str".toList).2.2 rfl⟩

/-- Claim C7 (confirmed): a non-code cell, or a code cell none of whose
lines contains the autotest marker, passes through `preprocess_cell`
unchanged apart from the effects of the base executor: every line is
appended verbatim and `"\n".join(source.split("\n"))` restores the
source text exactly; the lazily loaded session is untouched. -/
theorem c7_no_marker_passthrough (cfg : Config) (cb : Collab)
    (tests0 : Option Session) (cell : Cell) (res : Resources)
    (h : (cb.base cell res).1.cellType ≠ "code".toList ∨
        ∀ l ∈ pySplit '\n' (cb.base cell res).1.source,
          containsSub cfg.autotestDelimiter l = false) :
    preprocessCell cfg cb tests0 cell res
      = .ok ((cb.base cell res).1, (cb.base cell res).2, tests0) := by
  unfold preprocessCell
  rcases hb : cb.base cell res with ⟨c1, r1⟩
  rw [hb] at h
  simp only [] at h ⊢
  rcases h with h | h
  · rw [if_pos h]
  · by_cases hc : c1.cellType ≠ "code".toList
    · rw [if_pos hc]
    · rw [if_neg hc]
      rw [foldlM_passthrough cfg cb c1.isGradeCell r1 _ _ h]
      show Except.ok
        ({ c1 with source := pyJoin '\n' ([] ++ pySplit '\n' c1.source) }, r1, tests0)
        = Except.ok (c1, r1, tests0)
      rw [List.nil_append]
      unfold pyJoin pySplit
      rw [List.intercalate_splitOn]

/-- Witness for C7: a code cell with no marker comes back identical. -/
theorem c7_no_marker_witness :
    (∀ l ∈ pySplit '\n' (collabW.base cellC7 resW).1.source,
        containsSub cfgW.autotestDelimiter l = false) ∧
    preprocessCell cfgW collabW none cellC7 resW = .ok (cellC7, resW, none) :=
  ⟨by decide,
   c7_no_marker_passthrough cfgW collabW none cellC7 resW (Or.inr (by decide))⟩

/-- Claim C8 (confirmed): whenever the iopub poll of an iteration
delivers an `error`-type message correlated with the current request,
`_execute_code_snippet` immediately raises `CellExecutionError` (the
spec's `KernelExecutionError`), whose message embeds the submitted
code and the newline-joined kernel traceback (lines 51-66, 339-340),
aborting the poll loop regardless of the remaining trace. -/
theorem c8_error_message_raises (cfg : KConfig) (st : LoopState)
    (inp : StepInput) (rest : List StepInput) (tb : List (List Char))
    (hmo : st.moreOutput = true)
    (hdp : inp.deadlinePassed = false)
    (hio : inp.iopub = some ⟨true, .errorMsg tb⟩) :
    runLoop cfg st (inp :: rest)
      = .execErrorOut (execErrMsgText cfg.code (pyJoin '\n' tb)) := by
  obtain ⟨mo, pr, last⟩ := st
  obtain ⟨dp, rep, io⟩ := inp
  subst hmo; subst hdp; subst hio
  simp [runLoop, handleMsg]

/-- Witness for C8 at a concrete one-step trace. -/
theorem c8_error_message_witness :
    initLoopState.moreOutput = true ∧
    errStepW.iopub = some ⟨true, .errorMsg ["ZeroDivisionError".toList]⟩ ∧
    runLoop kcfgW initLoopState [errStepW]
      = .execErrorOut
          (execErrMsgText kcfgW.code (pyJoin '\n' ["ZeroDivisionError".toList])) :=
  ⟨rfl, rfl,
   c8_error_message_raises kcfgW initLoopState errStepW [] _ rfl rfl rfl⟩

/-- Claim C9 (confirmed): if, starting from the initial loop state, the
iopub channel delivers only uncorrelated or non-result messages and
then an idle status correlated with the request (the reply having
arrived by that iteration), `_execute_code_snippet` terminates through
`CellExecutionComplete` and returns `None` — no textual output — and
that `None` is what `_get_templates` and `_evaluate_variable_snippet`
receive as `dispatch_result` / `variable_value`. -/
theorem c9_idle_returns_none (cfg : KConfig) (pre : List StepInput)
    (istep : StepInput) (rest : List StepInput)
    (hpre : ∀ s ∈ pre, s.deadlinePassed = false ∧
        ∃ m, s.iopub = some m ∧
          (m.parentMatches = false ∨ m.typ = .statusOther ∨ m.typ = .otherMsg))
    (h1 : istep.deadlinePassed = false)
    (h2 : istep.reply.isSome = true)
    (h3 : istep.iopub = some ⟨true, .statusIdle⟩) :
    runLoop cfg initLoopState (pre ++ istep :: rest) = .completedNone :=
  runLoop_benign_then_idle cfg istep rest h1 h2 h3 pre hpre true none

/-- Witness for C9: one unrelated message, then the reply and a
matching idle status. -/
theorem c9_idle_returns_none_witness :
    (∀ s ∈ [benignStepW], s.deadlinePassed = false ∧
        ∃ m, s.iopub = some m ∧
          (m.parentMatches = false ∨ m.typ = .statusOther ∨ m.typ = .otherMsg)) ∧
    runLoop kcfgW initLoopState ([benignStepW] ++ [idleStepW]) = .completedNone := by
  have hb : ∀ s ∈ [benignStepW], s.deadlinePassed = false ∧
      ∃ m, s.iopub = some m ∧
        (m.parentMatches = false ∨ m.typ = .statusOther ∨ m.typ = .otherMsg) := by
    intro s hs
    rw [List.mem_singleton] at hs
    subst hs
    exact ⟨rfl, ⟨false, .otherMsg⟩, rfl, Or.inr (Or.inr rfl)⟩
  exact ⟨hb, c9_idle_returns_none kcfgW [benignStepW] idleStepW [] hb rfl rfl rfl⟩

/-- Claim C10 (confirmed): the directive guard of line 130 is total on
every line.  Python's short circuit reaches `line.strip()[0]` only
when the line contains the delimiter, and if the delimiter has at
least one non-whitespace character then any line containing it strips
to a non-empty string, so the index never faults (`checkDirectiveLine`
never returns `none`). -/
theorem c10_guard_total (delim line : List Char)
    (h : ∃ c ∈ delim, isPySpace c = false) :
    (checkDirectiveLine delim line).isSome = true := by
  obtain ⟨c, hc, hns⟩ := h
  cases hcont : containsSub delim line with
  | false => simp [checkDirectiveLine, hcont]
  | true =>
    have hmem : c ∈ line := mem_of_containsSub _ _ hcont hc
    have hne := pyStripWs_ne_nil_of_mem hmem hns
    cases hsw : pyStripWs line with
    | nil => exact absurd hsw hne
    | cons a t => simp [checkDirectiveLine, hcont, hsw]

/-- Witness for C10 on a whitespace-only line and on a directive line. -/
theorem c10_guard_total_witness :
    (∃ c ∈ autotestTok, isPySpace c = false) ∧
    (checkDirectiveLine autotestTok "   ".toList).isSome = true ∧
    (checkDirectiveLine autotestTok "#AUTOTEST x".toList).isSome = true :=
  ⟨by decide, c10_guard_total autotestTok _ (by decide),
   c10_guard_total autotestTok _ (by decide)⟩

end NbgraderInstantiateTests
